import Mathlib

/-!
Shallow embedding of `src/main.py` (topic-to-video pipeline, "Workflow A"),
plus a spec-modelled fragment of Workflow B's text extractor (absent from src).

External collaborators (OpenAI completion/TTS, Replicate image generation,
`requests` HTTP download, `json.loads`, the moviepy editing library, the clock)
are modelled as explicit oracle parameters; the filesystem is an explicit
association list threaded through each function; Python exceptions are the
`Except Err` monad, with a bare `raise` after logging modelled as propagating
the same error value.
-/

namespace TutorialAgent

/-- Abstract errors raised by external services and libraries.  A broad
`except Exception` re-raise in the Python source propagates the value
unchanged. -/
inductive Err where
  /-- an exception raised by an external service call -/
  | service (msg : String)
  /-- Python `IndexError` (e.g. `choices[0]` or `output[0]` on an empty list) -/
  | indexError
  /-- Python `KeyError` on a dict subscript -/
  | keyError (k : String)
  /-- Python `TypeError` (subscript / slice / len on an unsupported value) -/
  | typeError
  /-- `moviepy.concatenate_videoclips` on an empty clip list raises -/
  | emptyClipList
deriving DecidableEq, Repr

/-- JSON values, as produced by Python's `json.loads`. -/
inductive Json where
  | null
  | bool (b : Bool)
  | num (n : Int)
  | str (s : String)
  | arr (xs : List Json)
  | obj (kvs : List (String × Json))
deriving Repr

/-- `v[:n]` succeeds in Python on strings and lists (the shapes
`content["script"][:100]` accepts without a `TypeError`). -/
def Json.sliceable : Json → Bool
  | .str _ => true
  | .arr _ => true
  | _ => false

/-- `len(v)` succeeds in Python on strings, lists and dicts (the shapes
`len(content["scenes"])` accepts without a `TypeError`). -/
def Json.hasLen : Json → Bool
  | .str _ => true
  | .arr _ => true
  | .obj _ => true
  | _ => false

/-- Dict lookup on a JSON value; `none` when the value is an object lacking
the key. -/
def Json.get? : Json → String → Option Json
  | .obj kvs, k => kvs.lookup k
  | _, _ => none

/-- An HTTP response as returned by `requests.get`: `requests` does not raise
on error statuses, so the status code travels with the body. -/
structure HttpResp where
  status : Nat
  content : String
deriving DecidableEq, Repr

/-- Contents written to a file.  JSON sidecars and encoded videos are kept
structured so theorems can inspect what was written. -/
inductive FileData where
  | bytes (content : String)
  | jsonData (j : Json)
  | videoData (clips : List (String × Nat)) (audio : String) (fps : Nat)
      (codec : String) (audioCodec : String)
deriving Repr

/-- The filesystem: an association list of path/content pairs.  A write
prepends, so a lookup finds the most recent write; entries are never removed
(files are never deleted by the program). -/
abbrev FS := List (String × FileData)

/-- Write (create or overwrite) a file. -/
def FS.write (fs : FS) (path : String) (d : FileData) : FS := (path, d) :: fs

/-- Read the current content of a file, `none` if it was never written. -/
def FS.read? (fs : FS) (path : String) : Option FileData := fs.lookup path

/-- ASCII approximation of Python's `str.isalnum` (the repository's topics are
ASCII; Unicode alphanumerics are out of scope of this embedding). -/
def pyIsAlnum (c : Char) : Bool := c.isAlphanum

/-- `"".join(c for c in topic if c.isalnum() or c in (' ', '-', '_')).rstrip()`
from `create_output_directory` (src/main.py line 44). -/
def sanitize_topic (topic : String) : String :=
  let filtered := topic.data.filter fun c => pyIsAlnum c || c = ' ' || c = '-' || c = '_'
  String.mk (filtered.reverse.dropWhile (fun c => c.isWhitespace)).reverse

/-- `create_output_directory` (src/main.py lines 41-48): the path of the
run directory, `output/<timestamp>_<sanitized-topic>`.  `nowDir` is
`datetime.now().strftime("%Y%m%d_%H%M%S")`, a clock oracle; the `mkdir`
with `exist_ok=True` never fails and is not a file write. -/
def create_output_directory (nowDir : String) (topic : String) : String :=
  "output/" ++ nowDir ++ "_" ++ sanitize_topic topic

/-- The path of frame `i` inside the run directory:
`frames_dir / f"frame_{i}.png"` (src/main.py line 109). -/
def framePath (dir : String) (i : Nat) : String :=
  dir ++ "/frames/frame_" ++ toString i ++ ".png"

/-- The loop body of `generate_video_frames` (src/main.py lines 108-137):
for scene `i`, call the image-generation service (`replicate.run`), take the
first returned URL (`output[0]`, an IndexError when empty), download it
(`requests.get`), write the response body to `frames/frame_<i>.png`, and
append the path to the accumulator.  Any error aborts the loop and
propagates, leaving the filesystem as already written.  Polymorphic in the
scene type, as the Python source is untyped about what a scene is. -/
def genFramesLoop {α : Type} (gen : Nat → α → Except Err (List String))
    (download : String → Except Err HttpResp) (dir : String) :
    List α → Nat → FS → List String → FS × Except Err (List String)
  | [], _, fs, acc => (fs, .ok acc)
  | scene :: rest, i, fs, acc =>
    let output_path := framePath dir i
    match gen i scene with
    | .error e => (fs, .error e)
    | .ok urls =>
      match urls with
      | [] => (fs, .error .indexError)
      | url :: _ =>
        match download url with
        | .error e => (fs, .error e)
        | .ok resp =>
          genFramesLoop gen download dir rest (i + 1)
            (fs.write output_path (.bytes resp.content)) (acc ++ [output_path])

/-- `generate_video_frames` (src/main.py lines 100-139). -/
def generate_video_frames {α : Type} (gen : Nat → α → Except Err (List String))
    (download : String → Except Err HttpResp) (scenes : List α) (dir : String)
    (fs : FS) : FS × Except Err (List String) :=
  genFramesLoop gen download dir scenes 0 fs []

/-- `message.content` of one element of `response.choices`. -/
structure Message where
  content : String
deriving DecidableEq, Repr

/-- One element of the completion response's `choices` list. -/
structure Choice where
  message : Message
deriving DecidableEq, Repr

/-- The prompt built by `generate_script` (src/main.py lines 53-62). -/
def scriptPrompt (topic : String) : String :=
  "Create a short, engaging script about " ++ topic ++ ". The script should be:\n    1. Maximum 1000 characters\n    2. Easy to understand\n    3. Suitable for video narration\n    4. Include clear scene descriptions for image generation\n    \n    Format the response as JSON with:\n    - \"script\": The narration text\n    - \"scenes\": List of scene descriptions for image generation\n    "

/-- `generate_script` (src/main.py lines 50-79): call the completion service,
take `response.choices[0].message.content`, parse it with `json.loads`, and
return the parsed value unchanged.  The only accesses before returning are
the two debug-log expressions `content["script"][:100]` and
`len(content["scenes"])`, so the checks that can raise are: the value is a
dict (else `TypeError`), both keys exist (else `KeyError`), `"script"`
supports slicing and `"scenes"` supports `len` (else `TypeError`).  No
length bound or non-emptiness is checked, and errors propagate unchanged
(the `except` clause logs and bare-`raise`s).  The function performs no
file writes, so the filesystem passes through untouched. -/
def generate_script (complete : String → Except Err (List Choice))
    (jsonLoads : String → Except Err Json) (topic : String) (fs : FS) :
    FS × Except Err Json :=
  let prompt := scriptPrompt topic
  match complete prompt with
  | .error e => (fs, .error e)
  | .ok [] => (fs, .error .indexError)
  | .ok (choice :: _) =>
    match jsonLoads choice.message.content with
    | .error e => (fs, .error e)
    | .ok content =>
      match content with
      | .obj kvs =>
        match kvs.lookup "script" with
        | none => (fs, .error (.keyError "script"))
        | some sv =>
          if sv.sliceable then
            match kvs.lookup "scenes" with
            | none => (fs, .error (.keyError "scenes"))
            | some cv =>
              if cv.hasLen then (fs, .ok content) else (fs, .error .typeError)
          else (fs, .error .typeError)
      | _ => (fs, .error .typeError)

/-- `generate_audio` (src/main.py lines 81-98): synthesize speech for the
script (`openai.audio.speech.create`, oracle `tts` returning the audio
bytes), stream it to `<output_dir>/narration.mp3`, and return that path;
service errors propagate with no write. -/
def generate_audio (tts : String → Except Err String) (script : String)
    (output_dir : String) (fs : FS) : FS × Except Err String :=
  let output_path := output_dir ++ "/narration.mp3"
  match tts script with
  | .error e => (fs, .error e)
  | .ok data => (fs.write output_path (.bytes data), .ok output_path)

/-- `save_project_info` (src/main.py lines 175-187): dump exactly the four
keys topic / timestamp / script / scenes to `project_info.json`.  `nowIso`
is the `datetime.now().isoformat()` clock oracle (a second reading of the
clock, distinct from the directory timestamp). -/
def save_project_info (nowIso : String) (output_dir topic script : String)
    (scenes : List Json) (fs : FS) : FS :=
  let info : Json := .obj [("topic", .str topic), ("timestamp", .str nowIso),
    ("script", .str script), ("scenes", .arr scenes)]
  fs.write (output_dir ++ "/project_info.json") (.jsonData info)

/-- A file-backed media resource opened by the moviepy calls in
`create_video`: a `VideoFileClip` reader on a frame file, an
`AudioFileClip` reader, or the clip object returned by
`concatenate_videoclips`. -/
inductive Res where
  | clipOf (path : String)
  | audioOf (path : String)
  | concatOf (clips : List (String × Nat))
deriving DecidableEq, Repr

/-- Filesystem plus the ledger of media resources opened and explicitly
closed so far. -/
structure MediaState where
  fs : FS
  opened : List Res
  closed : List Res

/-- External library contract of `moviepy.concatenate_videoclips`: the
result plays the clips in input order; an empty clip list raises (moviepy
fails computing the size of an empty concatenation). -/
def concatenate_videoclips : List (String × Nat) → Except Err (List (String × Nat))
  | [] => .error .emptyClipList
  | c :: cs => .ok (c :: cs)

/-- `create_video` (src/main.py lines 141-173): open a `VideoFileClip` per
frame with `set_duration(3)`, concatenate them in order, open the audio
file, replace the concatenation's audio track with it (no duration
reconciliation), encode to `output_path` at `fps=24`, `codec='libx264'`,
`audio_codec='aac'`, then close the concatenated `video` object and the
`audio` clip — the per-frame `VideoFileClip`s in `clips` are never closed.
Errors propagate after logging. -/
def create_video (frames : List String) (audio_path output_path : String)
    (s : MediaState) : MediaState × Except Err Unit :=
  let clips : List (String × Nat) := frames.map fun p => (p, 3)
  let s1 : MediaState := { s with opened := s.opened ++ frames.map Res.clipOf }
  match concatenate_videoclips clips with
  | .error e => (s1, .error e)
  | .ok video =>
    let s2 := { s1 with
      opened := s1.opened ++ [Res.concatOf video, Res.audioOf audio_path] }
    let encoded := FS.write s2.fs output_path (.videoData video audio_path 24 "libx264" "aac")
    let s3 := { s2 with fs := encoded }
    let s4 := { s3 with
      closed := s3.closed ++ [Res.concatOf video, Res.audioOf audio_path] }
    (s4, .ok ())

/-- The oracles standing for every external collaborator of Workflow A. -/
structure Oracles where
  /-- `openai.ChatCompletion.create`: prompt to response choices -/
  complete : String → Except Err (List Choice)
  /-- `json.loads` -/
  jsonLoads : String → Except Err Json
  /-- `openai.audio.speech.create` + `stream_to_file`: script to audio bytes -/
  tts : String → Except Err String
  /-- `replicate.run` for scene index `i`: image URLs or an exception -/
  gen : Nat → Json → Except Err (List String)
  /-- `requests.get` -/
  download : String → Except Err HttpResp
  /-- `datetime.now().strftime("%Y%m%d_%H%M%S")` at directory creation -/
  nowDir : String
  /-- `datetime.now().isoformat()` at `save_project_info` -/
  nowIso : String

/-- `generate_video` (src/main.py lines 189-223): the Workflow A
orchestrator.  Creates the run directory, generates the script, saves
project info, synthesizes audio, generates frames, assembles the final
video, and returns its path.  `script = content["script"]` is handed to the
TTS service and `scenes = content["scenes"]` is iterated, so a non-string
script or non-list scenes fails at those external calls; the model
surfaces this as a `TypeError`. -/
def generate_video (o : Oracles) (topic : String) (s : MediaState) :
    MediaState × Except Err String :=
  let output_dir := create_output_directory o.nowDir topic
  match generate_script o.complete o.jsonLoads topic s.fs with
  | (fs1, .error e) => ({ s with fs := fs1 }, .error e)
  | (fs1, .ok content) =>
    match content.get? "script", content.get? "scenes" with
    | some (.str script), some (.arr scenes) =>
      let fs2 := save_project_info o.nowIso output_dir topic script scenes fs1
      match generate_audio o.tts script output_dir fs2 with
      | (fs3, .error e) => ({ s with fs := fs3 }, .error e)
      | (fs3, .ok audio_path) =>
        match generate_video_frames o.gen o.download scenes output_dir fs3 with
        | (fs4, .error e) => ({ s with fs := fs4 }, .error e)
        | (fs4, .ok frames) =>
          let output_path := output_dir ++ "/final_video.mp4"
          match create_video frames audio_path output_path { s with fs := fs4 } with
          | (s5, .error e) => (s5, .error e)
          | (s5, .ok ()) => (s5, .ok output_path)
    | _, _ => ({ s with fs := fs1 }, .error .typeError)

/-- Raw image bytes of a sampled frame (Workflow B). -/
def Image := String

/-- Modelled from the spec: Workflow B's `TextExtractor` (spec section 4.7
and testable property 4) is not present under `src/`.  Per the spec, the
primary path sends the raw image bytes to a vision-capable completion
service and returns its textual response; on ANY exception from the
primary path it runs a local OCR pass and concatenates the line-level
results in detection order; a failure of the OCR fallback itself
propagates uncaught. -/
def extract_text (vision : Image → Except Err String)
    (ocr : Image → Except Err (List String)) (img : Image) : Except Err String :=
  match vision img with
  | .ok t => .ok t
  | .error _ =>
    match ocr img with
    | .ok lines => .ok (String.join lines)
    | .error e => .error e

/-- The expected response structure, as the spec's words describe it
(section 4.1 output contract and section 3 data model): an object whose
`script` is a string and whose `scenes` is an ordered sequence of strings.
This is a spec-side definition, written for comparison with the code's
actual acceptance behavior. -/
def specExpectedStructure : Json → Bool
  | .obj kvs =>
    (match kvs.lookup "script" with
      | some (.str _) => true
      | _ => false) &&
    (match kvs.lookup "scenes" with
      | some (.arr xs) => xs.all fun x => match x with | .str _ => true | _ => false
      | _ => false)
  | _ => false

/-! ### Concrete instances used in witnesses and counterexamples -/

/-- An image-generation oracle that always succeeds with one URL. -/
def wGenOk : Nat → String → Except Err (List String) := fun _ _ => .ok ["http://img/u"]

/-- A download oracle that always succeeds with status 200. -/
def wDownloadOk : String → Except Err HttpResp := fun _ => .ok ⟨200, "img-bytes"⟩

/-- A download oracle that always returns an HTTP 404 error response
(without raising, as `requests.get` does). -/
def wDownload404 : String → Except Err HttpResp := fun _ => .ok ⟨404, "not-found-body"⟩

/-- An image-generation oracle that succeeds for scene 0 and raises for
every later scene. -/
def wGenFailFrom1 : Nat → String → Except Err (List String) := fun i _ =>
  match i with
  | 0 => .ok ["u0"]
  | _ + 1 => .error (.service "boom")

/-- A well-formed completion content: script is a short string, scenes is
an empty list. -/
def contentEmptyScenes : Json :=
  .obj [("script", .str "A short script."), ("scenes", .arr [])]

/-- A JSON content whose `scenes` is a list containing a number, i.e. not
the expected ordered sequence of strings. -/
def contentBadScenes : Json :=
  .obj [("script", .str "A short script."), ("scenes", .arr [.num 1])]

/-- Concrete oracles for a fully successful one-scene run of Workflow A. -/
def wOracles : Oracles :=
  { complete := fun _ => .ok [⟨⟨"raw"⟩⟩],
    jsonLoads := fun _ => .ok (.obj [("script", .str "A cat story."),
      ("scenes", .arr [.str "a cat"])]),
    tts := fun _ => .ok "mp3-bytes",
    gen := fun _ _ => .ok ["http://img/u"],
    download := fun _ => .ok ⟨200, "img-bytes"⟩,
    nowDir := "20240101_120000",
    nowIso := "2024-01-01T12:00:00" }

/-! ### Helper lemmas -/

theorem FS.mem_write (fs : FS) (p : String) (d : FileData) :
    (p, d) ∈ fs.write p d :=
  List.mem_cons_self _ _

theorem FS.mem_write_of_mem (fs : FS) (p q : String) (d e : FileData)
    (h : (q, e) ∈ fs) : (q, e) ∈ fs.write p d :=
  List.mem_cons_of_mem _ h

/-- When every image-generation call returns a non-empty URL list and every
download succeeds, the frame loop starting at index `i` returns the frame
paths for indices `i, i+1, …` appended to the accumulator, preserves every
existing filesystem entry, and leaves a written frame file for each
processed scene. -/
theorem genFramesLoop_success {α : Type} (gen : Nat → α → Except Err (List String))
    (download : String → Except Err HttpResp) (dir : String) (rest : List α) :
    ∀ (i : Nat) (fs : FS) (acc : List String),
    (∀ j (h : j < rest.length), ∃ url urls resp,
      gen (i + j) (rest.get ⟨j, h⟩) = .ok (url :: urls) ∧ download url = .ok resp) →
    ∃ fs', genFramesLoop gen download dir rest i fs acc =
        (fs', .ok (acc ++ (List.range rest.length).map (fun j => framePath dir (i + j)))) ∧
      (∀ p d, (p, d) ∈ fs → (p, d) ∈ fs') ∧
      (∀ j, j < rest.length → ∃ c, (framePath dir (i + j), FileData.bytes c) ∈ fs') := by
  induction rest with
  | nil =>
    intro i fs acc _
    exact ⟨fs, by simp [genFramesLoop], fun p d h => h, by simp⟩
  | cons scene rest ih =>
    intro i fs acc hok
    obtain ⟨url, urls, resp, hgen, hdl⟩ := hok 0 (Nat.succ_pos _)
    have hgen' : gen i scene = .ok (url :: urls) := by simpa using hgen
    obtain ⟨fs', heq, hmono, hframes⟩ :=
      ih (i + 1) (fs.write (framePath dir i) (.bytes resp.content)) (acc ++ [framePath dir i])
        (fun j h => by
          obtain ⟨u, us, r, h1, h2⟩ := hok (j + 1) (Nat.succ_lt_succ h)
          refine ⟨u, us, r, ?_, h2⟩
          have e : i + 1 + j = i + (j + 1) := by omega
          rw [e]
          exact h1)
    have hstep : genFramesLoop gen download dir (scene :: rest) i fs acc =
        genFramesLoop gen download dir rest (i + 1)
          (fs.write (framePath dir i) (.bytes resp.content)) (acc ++ [framePath dir i]) := by
      rw [genFramesLoop, hgen']
      dsimp only
      rw [hdl]
    refine ⟨fs', ?_, ?_, ?_⟩
    · rw [hstep, heq]
      have hf : (fun j => framePath dir (i + 1 + j)) = fun j => framePath dir (i + (j + 1)) := by
        funext j
        have e : i + 1 + j = i + (j + 1) := by omega
        rw [e]
      simp [List.range_succ_eq_map, List.map_map, Function.comp, hf]
    · exact fun p d h => hmono p d (FS.mem_write_of_mem _ _ _ _ _ h)
    · intro j hj
      match j with
      | 0 =>
        refine ⟨resp.content, ?_⟩
        simpa using hmono _ _ (FS.mem_write fs (framePath dir i) (.bytes resp.content))
      | j + 1 =>
        obtain ⟨c, hc⟩ := hframes j (Nat.lt_of_succ_lt_succ hj)
        refine ⟨c, ?_⟩
        have e : i + (j + 1) = i + 1 + j := by omega
        rw [e]
        exact hc

/-- When the scenes at relative indices `< k` succeed and the scene at
relative index `k` fails (its generation call or its download raises), the
frame loop returns that error, behaves exactly as it would on the input
truncated just after the failing scene (no later scene is attempted),
preserves every existing filesystem entry, and leaves the frames written
for the scenes before `k` on disk. -/
theorem genFramesLoop_abort {α : Type} (gen : Nat → α → Except Err (List String))
    (download : String → Except Err HttpResp) (dir : String) (rest : List α) :
    ∀ (i : Nat) (fs : FS) (acc : List String) (k : Nat) (hk : k < rest.length),
    (∀ j (h : j < k), ∃ url urls resp,
      gen (i + j) (rest.get ⟨j, Nat.lt_trans h hk⟩) = .ok (url :: urls) ∧
        download url = .ok resp) →
    ((∃ e, gen (i + k) (rest.get ⟨k, hk⟩) = .error e) ∨
      (∃ url urls e, gen (i + k) (rest.get ⟨k, hk⟩) = .ok (url :: urls) ∧
        download url = .error e)) →
    ∃ fs' e, genFramesLoop gen download dir rest i fs acc = (fs', .error e) ∧
      genFramesLoop gen download dir (rest.take (k + 1)) i fs acc = (fs', .error e) ∧
      (∀ p d, (p, d) ∈ fs → (p, d) ∈ fs') ∧
      (∀ j, j < k → ∃ c, (framePath dir (i + j), FileData.bytes c) ∈ fs') := by
  induction rest with
  | nil =>
    intro i fs acc k hk
    exact absurd hk (Nat.not_lt_zero k)
  | cons scene rest ih =>
    intro i fs acc k hk hbefore hfail
    match k with
    | 0 =>
      rcases hfail with ⟨e, he⟩ | ⟨url, urls, e, hgen, hdl⟩
      · have he' : gen i scene = .error e := by simpa using he
        refine ⟨fs, e, ?_, ?_, fun p d h => h, fun j hj => absurd hj (Nat.not_lt_zero j)⟩
        · rw [genFramesLoop, he']
        · rw [List.take, List.take, genFramesLoop, he']
      · have hgen' : gen i scene = .ok (url :: urls) := by simpa using hgen
        refine ⟨fs, e, ?_, ?_, fun p d h => h, fun j hj => absurd hj (Nat.not_lt_zero j)⟩
        · rw [genFramesLoop, hgen']
          dsimp only
          rw [hdl]
        · rw [List.take, List.take, genFramesLoop, hgen']
          dsimp only
          rw [hdl]
    | k + 1 =>
      obtain ⟨url, urls, resp, hgen, hdl⟩ := hbefore 0 (Nat.succ_pos _)
      have hgen' : gen i scene = .ok (url :: urls) := by simpa using hgen
      have hk' : k < rest.length := Nat.lt_of_succ_lt_succ hk
      obtain ⟨fs', e, hrun, htake, hmono, hframes⟩ :=
        ih (i + 1) (fs.write (framePath dir i) (.bytes resp.content))
          (acc ++ [framePath dir i]) k hk'
          (fun j h => by
            obtain ⟨u, us, r, h1, h2⟩ := hbefore (j + 1) (Nat.succ_lt_succ h)
            refine ⟨u, us, r, ?_, h2⟩
            have eq1 : i + 1 + j = i + (j + 1) := by omega
            rw [eq1]
            exact h1)
          (by
            rcases hfail with ⟨e, he⟩ | ⟨u, us, e, h1, h2⟩
            · refine Or.inl ⟨e, ?_⟩
              have eq1 : i + 1 + k = i + (k + 1) := by omega
              rw [eq1]
              exact he
            · refine Or.inr ⟨u, us, e, ?_, h2⟩
              have eq1 : i + 1 + k = i + (k + 1) := by omega
              rw [eq1]
              exact h1)
      have hstep : ∀ (l : List α), genFramesLoop gen download dir (scene :: l) i fs acc =
          genFramesLoop gen download dir l (i + 1)
            (fs.write (framePath dir i) (.bytes resp.content)) (acc ++ [framePath dir i]) := by
        intro l
        rw [genFramesLoop, hgen']
        dsimp only
        rw [hdl]
      refine ⟨fs', e, ?_, ?_, ?_, ?_⟩
      · rw [hstep rest]
        exact hrun
      · rw [List.take, hstep (rest.take (k + 1))]
        exact htake
      · exact fun p d h => hmono p d (FS.mem_write_of_mem _ _ _ _ _ h)
      · intro j hj
        match j with
        | 0 =>
          refine ⟨resp.content, ?_⟩
          simpa using hmono _ _ (FS.mem_write fs (framePath dir i) (.bytes resp.content))
        | j + 1 =>
          obtain ⟨c, hc⟩ := hframes j (Nat.lt_of_succ_lt_succ hj)
          refine ⟨c, ?_⟩
          have eq1 : i + (j + 1) = i + 1 + j := by omega
          rw [eq1]
          exact hc

/-! ### Claim theorems -/

/-- C1: for every ordered list of N scene descriptions, when every
image-generation call and every image download succeed,
`generate_video_frames` returns exactly N file paths in the same order as
the input scenes, where the path for scene i is `frames/frame_<i>.png`
inside the output directory, and each file has been written to disk. -/
theorem frames_success_order {α : Type} (gen : Nat → α → Except Err (List String))
    (download : String → Except Err HttpResp) (scenes : List α) (dir : String) (fs : FS)
    (hok : ∀ i (h : i < scenes.length), ∃ url urls resp,
      gen i (scenes.get ⟨i, h⟩) = .ok (url :: urls) ∧ download url = .ok resp) :
    ∃ fs', generate_video_frames gen download scenes dir fs =
        (fs', .ok ((List.range scenes.length).map (framePath dir))) ∧
      ∀ i, i < scenes.length → ∃ c, (framePath dir i, FileData.bytes c) ∈ fs' := by
  obtain ⟨fs', heq, _, hframes⟩ := genFramesLoop_success gen download dir scenes 0 fs []
    (fun j h => by simpa using hok j h)
  refine ⟨fs', ?_, fun i h => by simpa using hframes i h⟩
  rw [generate_video_frames, heq]
  simp

/-- Witness for C1 at two concrete scenes with always-succeeding oracles. -/
theorem frames_success_order_witness :
    ∃ fs', generate_video_frames wGenOk wDownloadOk ["a sunset", "a forest"] "output/d" [] =
        (fs', .ok ((List.range 2).map (framePath "output/d"))) ∧
      ∀ i, i < 2 → ∃ c, (framePath "output/d" i, FileData.bytes c) ∈ fs' :=
  frames_success_order wGenOk wDownloadOk ["a sunset", "a forest"] "output/d" []
    (fun _ _ => ⟨"http://img/u", [], ⟨200, "img-bytes"⟩, rfl, rfl⟩)

/-- C2: for every scene list and every failing scene index k (0-based, with
at least one scene before it, i.e. the claim's 1-based 1 < k ≤ N), if the
scenes before k succeed and scene k's generation call or download raises,
`generate_video_frames` raises, behaves exactly as on the input truncated
after scene k (no scene after k is attempted), and the frame files already
written for the scenes before k remain on disk; no partial result is
returned. -/
theorem frames_abort_on_failure {α : Type} (gen : Nat → α → Except Err (List String))
    (download : String → Except Err HttpResp) (scenes : List α) (dir : String) (fs : FS)
    (k : Nat) (_hk1 : 1 ≤ k) (hk : k < scenes.length)
    (hbefore : ∀ j (h : j < k), ∃ url urls resp,
      gen j (scenes.get ⟨j, Nat.lt_trans h hk⟩) = .ok (url :: urls) ∧
        download url = .ok resp)
    (hfail : (∃ e, gen k (scenes.get ⟨k, hk⟩) = .error e) ∨
      (∃ url urls e, gen k (scenes.get ⟨k, hk⟩) = .ok (url :: urls) ∧
        download url = .error e)) :
    ∃ fs' e, generate_video_frames gen download scenes dir fs = (fs', .error e) ∧
      generate_video_frames gen download (scenes.take (k + 1)) dir fs = (fs', .error e) ∧
      (∀ p d, (p, d) ∈ fs → (p, d) ∈ fs') ∧
      (∀ j, j < k → ∃ c, (framePath dir j, FileData.bytes c) ∈ fs') := by
  obtain ⟨fs', e, hrun, htake, hmono, hframes⟩ :=
    genFramesLoop_abort gen download dir scenes 0 fs [] k hk
      (fun j h => by simpa using hbefore j h)
      (by simpa using hfail)
  exact ⟨fs', e, hrun, htake, hmono, fun j hj => by simpa using hframes j hj⟩

/-- Witness for C2: three scenes, scene 1 raises; the run aborts with that
error and frame 0 remains on disk. -/
theorem frames_abort_on_failure_witness :
    ∃ fs' e, generate_video_frames wGenFailFrom1 wDownloadOk ["a", "b", "c"] "d" [] =
        (fs', .error e) ∧
      generate_video_frames wGenFailFrom1 wDownloadOk (["a", "b", "c"].take 2) "d" [] =
        (fs', .error e) ∧
      (∀ p dd, (p, dd) ∈ ([] : FS) → (p, dd) ∈ fs') ∧
      (∀ j, j < 1 → ∃ c, (framePath "d" j, FileData.bytes c) ∈ fs') := by
  refine frames_abort_on_failure wGenFailFrom1 wDownloadOk ["a", "b", "c"] "d" [] 1
    (Nat.le_refl 1) (by decide) ?_ ?_
  · intro j h
    match j, h with
    | 0, _ => exact ⟨"u0", [], ⟨200, "img-bytes"⟩, rfl, rfl⟩
  · exact Or.inl ⟨.service "boom", rfl⟩

/-- C9: for a scene whose generation call succeeds, the bytes of the HTTP
download response are written to the frame file and the scene is counted as
a success regardless of the download's HTTP status `st`: the loop writes
the response body (even an error body) and continues with the remaining
scenes. -/
theorem frames_ignore_http_status {α : Type} (gen : Nat → α → Except Err (List String))
    (download : String → Except Err HttpResp) (scene : α) (rest : List α)
    (dir : String) (fs : FS) (url : String) (urls : List String) (st : Nat) (body : String)
    (hgen : gen 0 scene = .ok (url :: urls)) (hdl : download url = .ok ⟨st, body⟩) :
    generate_video_frames gen download (scene :: rest) dir fs =
      genFramesLoop gen download dir rest 1
        (fs.write (framePath dir 0) (.bytes body)) [framePath dir 0] ∧
    (framePath dir 0, FileData.bytes body) ∈ fs.write (framePath dir 0) (.bytes body) := by
  constructor
  · rw [generate_video_frames, genFramesLoop, hgen]
    dsimp only
    rw [hdl]
    rfl
  · exact FS.mem_write _ _ _

/-- Witness for C9: a 404 download response still yields a written frame
file holding the error body, and the pipeline does not abort. -/
theorem frames_ignore_http_status_witness :
    generate_video_frames wGenOk wDownload404 ["a sunset"] "d" [] =
      genFramesLoop wGenOk wDownload404 "d" [] 1
        (FS.write [] (framePath "d" 0) (.bytes "not-found-body")) [framePath "d" 0] ∧
    (framePath "d" 0, FileData.bytes "not-found-body") ∈
      FS.write [] (framePath "d" 0) (.bytes "not-found-body") :=
  frames_ignore_http_status wGenOk wDownload404 "a sunset" [] "d" [] "http://img/u" []
    404 "not-found-body" rfl rfl

/-- C10: for the empty scene list, `generate_video_frames` succeeds with
the empty path list, raising nothing and writing nothing; `create_video`
on the resulting empty frame list is where the first failure surfaces
(moviepy's concatenation of an empty clip list raises). -/
theorem frames_empty_scenes {α : Type} (gen : Nat → α → Except Err (List String))
    (download : String → Except Err HttpResp) (dir : String) (fs : FS)
    (audio_path output_path : String) (s : MediaState) :
    generate_video_frames gen download ([] : List α) dir fs = (fs, .ok []) ∧
    ∃ e, create_video [] audio_path output_path s = (s, .error e) := by
  refine ⟨rfl, .emptyClipList, ?_⟩
  cases s
  simp [create_video, concatenate_videoclips]

/-- When the completion service returns at least one choice, its content
parses as a JSON object, and the two logged accesses succeed (a sliceable
`script`, a len-supporting `scenes`), `generate_script` returns the parsed
object unchanged, with the filesystem untouched. -/
theorem generate_script_ok (complete : String → Except Err (List Choice))
    (jsonLoads : String → Except Err Json) (topic : String) (fs : FS)
    (m : Choice) (rest : List Choice) (kvs : List (String × Json)) (sv cv : Json)
    (hc : complete (scriptPrompt topic) = .ok (m :: rest))
    (hj : jsonLoads m.message.content = .ok (.obj kvs))
    (hs : kvs.lookup "script" = some sv) (hsv : sv.sliceable = true)
    (hcv : kvs.lookup "scenes" = some cv) (hcl : cv.hasLen = true) :
    generate_script complete jsonLoads topic fs = (fs, .ok (.obj kvs)) := by
  simp only [generate_script, hc, hj, hs, hsv, hcv, hcl, if_true]

/-- C3 counterexample: a well-formed completion response (its `script` is a
string of at most 1000 characters, its `scenes` an ordered — here empty —
sequence of strings) for which `generate_script` succeeds yet returns an
empty scene list, contradicting the claim that the returned scenes are
always non-empty. -/
theorem script_empty_scenes_accepted :
    ("A short script.").length ≤ 1000 ∧
    contentEmptyScenes.get? "script" = some (.str "A short script.") ∧
    contentEmptyScenes.get? "scenes" = some (.arr []) ∧
    generate_script (fun _ => .ok [⟨⟨"raw"⟩⟩]) (fun _ => .ok contentEmptyScenes) "cats" [] =
      ([], .ok contentEmptyScenes) := by
  refine ⟨by decide, rfl, rfl, ?_⟩
  rfl

/-- C3 (amended): for every topic, when the completion-service response is
well-formed (an object with a string `script` and a list `scenes`),
`generate_script` returns the parsed content verbatim: neither the
1000-character bound on the script nor the non-emptiness of the scene list
is enforced — both are only requested in the prompt — so responses
violating them are returned unchanged. -/
theorem script_returned_verbatim (complete : String → Except Err (List Choice))
    (jsonLoads : String → Except Err Json) (topic : String) (fs : FS)
    (m : Choice) (rest : List Choice) (kvs : List (String × Json))
    (script : String) (scenes : List Json)
    (hc : complete (scriptPrompt topic) = .ok (m :: rest))
    (hj : jsonLoads m.message.content = .ok (.obj kvs))
    (hs : kvs.lookup "script" = some (.str script))
    (hcv : kvs.lookup "scenes" = some (.arr scenes)) :
    generate_script complete jsonLoads topic fs = (fs, .ok (.obj kvs)) :=
  generate_script_ok complete jsonLoads topic fs m rest kvs _ _ hc hj hs rfl hcv rfl

set_option maxRecDepth 8000 in
/-- Witness for C3 (amended): a response whose script has 1001 characters
and whose scene list is empty is returned unchanged. -/
theorem script_returned_verbatim_witness :
    (String.mk (List.replicate 1001 'a')).length = 1001 ∧
    generate_script (fun _ => .ok [⟨⟨"raw"⟩⟩])
      (fun _ => .ok (.obj [("script", .str (String.mk (List.replicate 1001 'a'))),
        ("scenes", .arr [])])) "cats" [] =
      ([], .ok (.obj [("script", .str (String.mk (List.replicate 1001 'a'))),
        ("scenes", .arr [])])) :=
  ⟨by rfl, script_returned_verbatim _ _ "cats" [] ⟨⟨"raw"⟩⟩ [] _ _ [] rfl rfl rfl rfl⟩

/-- C4 counterexample: a completion response that parses as JSON but is not
the expected structure (its `scenes` contains a number, not a string) is
returned by `generate_script` without any error being raised, contradicting
the claim that every structurally unexpected response raises. -/
theorem script_bad_structure_accepted :
    specExpectedStructure contentBadScenes = false ∧
    generate_script (fun _ => .ok [⟨⟨"raw"⟩⟩]) (fun _ => .ok contentBadScenes) "cats" [] =
      ([], .ok contentBadScenes) := by
  exact ⟨rfl, rfl⟩

/-- C4 (amended): `generate_script` raises — propagating the underlying or
derived exception unchanged, with no retry and no schema repair — and
performs no file writes, whenever the completion service errors, returns
no choices, or returns content that fails JSON parsing or fails one of the
accessed-field checks (content not a dict, missing `script` or `scenes`
key, an unsliceable `script`, a `scenes` without `len`); structural
deviations in parts of the response the code never accesses (such as
non-string scene entries) do NOT raise and are returned as parsed. -/
theorem script_error_propagation (complete : String → Except Err (List Choice))
    (jsonLoads : String → Except Err Json) (topic : String) (fs : FS) (e : Err)
    (h : complete (scriptPrompt topic) = .error e ∨
      (complete (scriptPrompt topic) = .ok [] ∧ e = .indexError) ∨
      (∃ m rest, complete (scriptPrompt topic) = .ok (m :: rest) ∧
        jsonLoads m.message.content = .error e) ∨
      (∃ m rest j, complete (scriptPrompt topic) = .ok (m :: rest) ∧
        jsonLoads m.message.content = .ok j ∧ (∀ kvs, j ≠ .obj kvs) ∧ e = .typeError) ∨
      (∃ m rest kvs, complete (scriptPrompt topic) = .ok (m :: rest) ∧
        jsonLoads m.message.content = .ok (.obj kvs) ∧
        kvs.lookup "script" = none ∧ e = .keyError "script") ∨
      (∃ m rest kvs sv, complete (scriptPrompt topic) = .ok (m :: rest) ∧
        jsonLoads m.message.content = .ok (.obj kvs) ∧
        kvs.lookup "script" = some sv ∧ sv.sliceable = false ∧ e = .typeError) ∨
      (∃ m rest kvs sv, complete (scriptPrompt topic) = .ok (m :: rest) ∧
        jsonLoads m.message.content = .ok (.obj kvs) ∧
        kvs.lookup "script" = some sv ∧ sv.sliceable = true ∧
        kvs.lookup "scenes" = none ∧ e = .keyError "scenes") ∨
      (∃ m rest kvs sv cv, complete (scriptPrompt topic) = .ok (m :: rest) ∧
        jsonLoads m.message.content = .ok (.obj kvs) ∧
        kvs.lookup "script" = some sv ∧ sv.sliceable = true ∧
        kvs.lookup "scenes" = some cv ∧ cv.hasLen = false ∧ e = .typeError)) :
    generate_script complete jsonLoads topic fs = (fs, .error e) := by
  rcases h with h1 | ⟨h1, rfl⟩ | ⟨m, rest, h1, h2⟩ | ⟨m, rest, j, h1, h2, hno, rfl⟩ |
    ⟨m, rest, kvs, h1, h2, hs, rfl⟩ | ⟨m, rest, kvs, sv, h1, h2, hs, hsv, rfl⟩ |
    ⟨m, rest, kvs, sv, h1, h2, hs, hsv, hcv, rfl⟩ |
    ⟨m, rest, kvs, sv, cv, h1, h2, hs, hsv, hcv, hcl, rfl⟩
  · rw [generate_script, h1]
  · rw [generate_script, h1]
  · rw [generate_script, h1]
    dsimp only
    rw [h2]
  · rw [generate_script, h1]
    dsimp only
    rw [h2]
    dsimp only
    cases j
    case obj kvs => exact absurd rfl (hno kvs)
    all_goals rfl
  · simp only [generate_script, h1, h2, hs]
  · simp only [generate_script, h1, h2, hs, hsv, if_false, Bool.false_eq_true]
  · simp only [generate_script, h1, h2, hs, hsv, hcv, if_true]
  · simp only [generate_script, h1, h2, hs, hsv, hcv, hcl, if_true, if_false,
      Bool.false_eq_true]

/-- Witness for C4 (amended): a raising completion service propagates its
own exception out of `generate_script`, with the filesystem untouched. -/
theorem script_error_propagation_witness :
    generate_script (fun _ => .error (.service "boom")) (fun _ => .ok .null) "cats" [] =
      ([], .error (.service "boom")) :=
  script_error_propagation _ _ "cats" [] (.service "boom") (Or.inl rfl)

/-- On a non-empty frame list, `create_video` encodes and returns
successfully; the resulting state is fully determined: the output file
holds the duration-3 clips in input order with the supplied audio at 24
fps / libx264 / aac, the opened resources are one reader per frame plus
the concatenated clip object and the audio reader, and only the latter two
are closed. -/
theorem create_video_cons (f : String) (fr : List String)
    (audio_path output_path : String) (s : MediaState) :
    create_video (f :: fr) audio_path output_path s =
      ({ fs := FS.write s.fs output_path
            (.videoData ((f :: fr).map fun p => (p, 3)) audio_path 24 "libx264" "aac"),
          opened := s.opened ++ (f :: fr).map Res.clipOf ++
            [Res.concatOf ((f :: fr).map fun p => (p, 3)), Res.audioOf audio_path],
          closed := s.closed ++
            [Res.concatOf ((f :: fr).map fun p => (p, 3)), Res.audioOf audio_path] },
        .ok ()) := by
  rfl

/-- C6 (amended): every frame becomes a clip of fixed duration 3 seconds,
clips are concatenated in input order, the concatenated video's audio
track is replaced by the supplied audio file with no duration
reconciliation, and the output is encoded at 24 fps with the libx264 /
aac codecs; after encoding, the concatenated video object and the audio
reader are explicitly released, but the per-frame clip readers are not
(they are opened and never closed). -/
theorem create_video_behavior (f : String) (fr : List String)
    (audio_path output_path : String) (s : MediaState) :
    ∃ s', create_video (f :: fr) audio_path output_path s = (s', .ok ()) ∧
      s'.fs = FS.write s.fs output_path
        (.videoData ((f :: fr).map fun p => (p, 3)) audio_path 24 "libx264" "aac") ∧
      s'.opened = s.opened ++ (f :: fr).map Res.clipOf ++
        [Res.concatOf ((f :: fr).map fun p => (p, 3)), Res.audioOf audio_path] ∧
      s'.closed = s.closed ++
        [Res.concatOf ((f :: fr).map fun p => (p, 3)), Res.audioOf audio_path] :=
  ⟨_, create_video_cons f fr audio_path output_path s, rfl, rfl, rfl⟩

/-- C6 counterexample: on a concrete one-frame input, the frame's
`VideoFileClip` reader is opened by `create_video` but is absent from the
closed-resource ledger after encoding, so not every opened media resource
is explicitly released. -/
theorem create_video_leaks_clip_readers :
    ∃ s', create_video ["f0.png"] "a.mp3" "out.mp4" ⟨[], [], []⟩ = (s', .ok ()) ∧
      Res.clipOf "f0.png" ∈ s'.opened ∧ Res.clipOf "f0.png" ∉ s'.closed := by
  refine ⟨_, create_video_cons "f0.png" [] "a.mp3" "out.mp4" ⟨[], [], []⟩, ?_, ?_⟩
  · decide
  · decide

/-- Two equal run-directory paths with equal-length timestamps come from
the same timestamp and the same sanitized topic (the timestamp from
`strftime("%Y%m%d_%H%M%S")` always has 15 characters). -/
theorem create_output_directory_inj (ts1 ts2 t1 t2 : String)
    (hlen : ts1.length = ts2.length)
    (h : create_output_directory ts1 t1 = create_output_directory ts2 t2) :
    ts1 = ts2 ∧ sanitize_topic t1 = sanitize_topic t2 := by
  have hd := congrArg String.data h
  simp only [create_output_directory, String.data_append, List.append_assoc] at hd
  have hd' := List.append_cancel_left hd
  have hlen' : ts1.data.length = ts2.data.length := hlen
  obtain ⟨hts, hrest⟩ := List.append_inj hd' hlen'
  have hs := List.append_cancel_left hrest
  exact ⟨String.ext hts, String.ext hs⟩

/-- C7 (amended): two runs whose second-resolution timestamps differ, or
whose topics sanitize differently, get distinct output directories; the
uniqueness claimed for ALL distinct runs fails, because the directory name
depends only on the timestamp string and the sanitized topic. -/
theorem output_dirs_distinct (ts1 ts2 t1 t2 : String)
    (hlen : ts1.length = ts2.length)
    (hne : ts1 ≠ ts2 ∨ sanitize_topic t1 ≠ sanitize_topic t2) :
    create_output_directory ts1 t1 ≠ create_output_directory ts2 t2 := by
  intro h
  obtain ⟨h1, h2⟩ := create_output_directory_inj ts1 ts2 t1 t2 hlen h
  rcases hne with hne | hne
  · exact hne h1
  · exact hne h2

/-- Witness for C7 (amended): runs one second apart get distinct
directories. -/
theorem output_dirs_distinct_witness :
    create_output_directory "20240101_120000" "Cats" ≠
      create_output_directory "20240101_120001" "Cats" :=
  output_dirs_distinct "20240101_120000" "20240101_120001" "Cats" "Cats" rfl
    (Or.inl (by decide))

/-- C7 counterexample: two distinct runs in the same second, on the
distinct topics `"a!"` and `"a?"`, produce the same output directory —
sanitization drops both punctuation characters, so the directory is not
unique per run and concurrent runs can collide. -/
theorem output_dirs_collide :
    ("a!" : String) ≠ "a?" ∧
    create_output_directory "20240101_120000" "a!" =
      create_output_directory "20240101_120000" "a?" := by
  exact ⟨by decide, by decide⟩

/-- C8: for every frame image, the text extractor first sends the image to
the vision-capable completion service and returns its textual response;
if that primary call raises any exception whatsoever, it instead runs the
local OCR pass and returns its line-level results concatenated in
detection order; and if the OCR fallback itself raises, that exception
propagates uncaught. -/
theorem extract_text_fallback (vision : Image → Except Err String)
    (ocr : Image → Except Err (List String)) (img : Image) :
    (∀ t, vision img = .ok t → extract_text vision ocr img = .ok t) ∧
    (∀ e lines, vision img = .error e → ocr img = .ok lines →
      extract_text vision ocr img = .ok (String.join lines)) ∧
    (∀ e e2, vision img = .error e → ocr img = .error e2 →
      extract_text vision ocr img = .error e2) := by
  refine ⟨fun t h => ?_, fun e lines h1 h2 => ?_, fun e e2 h1 h2 => ?_⟩
  · rw [extract_text, h]
  · rw [extract_text, h1]
    dsimp only
    rw [h2]
  · rw [extract_text, h1]
    dsimp only
    rw [h2]

/-- Witness for C8: a raising vision service triggers the OCR fallback,
whose line results come back concatenated in detection order. -/
theorem extract_text_fallback_witness :
    extract_text (fun _ => .error (.service "timeout"))
      (fun _ => .ok ["line one ", "line two"]) ("img-bytes" : Image) =
      .ok (String.join ["line one ", "line two"]) :=
  (extract_text_fallback (fun _ => .error (.service "timeout"))
      (fun _ => .ok ["line one ", "line two"]) ("img-bytes" : Image)).2.1
    (.service "timeout") ["line one ", "line two"] rfl rfl

/-- Unfolding the frame-path list over `range (n+1)` into head and tail. -/
theorem range_map_cons {β : Type} (n : Nat) (f : Nat → β) :
    (List.range (n + 1)).map f = f 0 :: (List.range n).map fun j => f (j + 1) := by
  simp [List.range_succ_eq_map, List.map_map, Function.comp]

/-- C5: every successful run of Workflow A on a topic lays out its
artifacts as `output/<timestamp>_<sanitized-topic>/` containing
`narration.mp3`, `frames/frame_<i>.png` for each scene index, a
`project_info.json` holding exactly the keys topic, timestamp, script and
scenes, and `final_video.mp4`. -/
theorem workflow_layout (o : Oracles) (topic : String) (s : MediaState)
    (m : Choice) (rest : List Choice) (kvs : List (String × Json))
    (script : String) (scenes : List Json) (audioBytes : String)
    (hc : o.complete (scriptPrompt topic) = .ok (m :: rest))
    (hj : o.jsonLoads m.message.content = .ok (.obj kvs))
    (hs : kvs.lookup "script" = some (.str script))
    (hsc : kvs.lookup "scenes" = some (.arr scenes))
    (hne : scenes ≠ [])
    (htts : o.tts script = .ok audioBytes)
    (hok : ∀ j (h : j < scenes.length), ∃ url urls resp,
      o.gen j (scenes.get ⟨j, h⟩) = .ok (url :: urls) ∧ o.download url = .ok resp) :
    ∃ s', generate_video o topic s =
        (s', .ok (create_output_directory o.nowDir topic ++ "/final_video.mp4")) ∧
      create_output_directory o.nowDir topic =
        "output/" ++ o.nowDir ++ "_" ++ sanitize_topic topic ∧
      (create_output_directory o.nowDir topic ++ "/narration.mp3",
        FileData.bytes audioBytes) ∈ s'.fs ∧
      (∀ j, j < scenes.length → ∃ c,
        (framePath (create_output_directory o.nowDir topic) j, FileData.bytes c) ∈ s'.fs) ∧
      (create_output_directory o.nowDir topic ++ "/project_info.json",
        FileData.jsonData (.obj [("topic", .str topic), ("timestamp", .str o.nowIso),
          ("script", .str script), ("scenes", .arr scenes)])) ∈ s'.fs ∧
      ∃ clips, (create_output_directory o.nowDir topic ++ "/final_video.mp4",
        FileData.videoData clips
          (create_output_directory o.nowDir topic ++ "/narration.mp3")
          24 "libx264" "aac") ∈ s'.fs := by
  set dir := create_output_directory o.nowDir topic with hdir
  have hgs : generate_script o.complete o.jsonLoads topic s.fs = (s.fs, .ok (.obj kvs)) :=
    generate_script_ok o.complete o.jsonLoads topic s.fs m rest kvs _ _ hc hj hs rfl hsc rfl
  -- the filesystem after writing project info and narration
  set fs2 : FS := FS.write s.fs (dir ++ "/project_info.json")
    (.jsonData (.obj [("topic", .str topic), ("timestamp", .str o.nowIso),
      ("script", .str script), ("scenes", .arr scenes)])) with hfs2
  set fs3 : FS := FS.write fs2 (dir ++ "/narration.mp3") (.bytes audioBytes) with hfs3
  obtain ⟨fs4, hloop, hmono, hframes⟩ :=
    genFramesLoop_success o.gen o.download dir scenes 0 fs3 []
      (fun j h => by simpa using hok j h)
  have hvf : generate_video_frames o.gen o.download scenes dir fs3 =
      (fs4, .ok ((List.range scenes.length).map fun j => framePath dir j)) := by
    rw [generate_video_frames, hloop]
    simp
  obtain ⟨sc0, sctl, rfl⟩ := List.exists_cons_of_ne_nil hne
  have hcons : ((List.range (sc0 :: sctl).length).map fun j => framePath dir j) =
      framePath dir 0 :: ((List.range sctl.length).map fun j => framePath dir (j + 1)) := by
    rw [List.length_cons, range_map_cons]
  have hrun : generate_video o topic s =
      ({ fs := FS.write fs4 (dir ++ "/final_video.mp4")
            (.videoData (((List.range (sc0 :: sctl).length).map fun j => framePath dir j).map
                fun p => (p, 3))
              (dir ++ "/narration.mp3") 24 "libx264" "aac"),
          opened := { s with fs := fs4 }.opened ++
            ((List.range (sc0 :: sctl).length).map fun j => framePath dir j).map Res.clipOf ++
            [Res.concatOf (((List.range (sc0 :: sctl).length).map fun j => framePath dir j).map
                fun p => (p, 3)),
              Res.audioOf (dir ++ "/narration.mp3")],
          closed := { s with fs := fs4 }.closed ++
            [Res.concatOf (((List.range (sc0 :: sctl).length).map fun j => framePath dir j).map
                fun p => (p, 3)),
              Res.audioOf (dir ++ "/narration.mp3")] },
        .ok (dir ++ "/final_video.mp4")) := by
    rw [generate_video]
    rw [hgs]
    dsimp only [Json.get?]
    rw [hs, hsc]
    dsimp only [save_project_info, generate_audio]
    rw [htts]
    dsimp only
    rw [← hfs2, ← hfs3, hvf]
    dsimp only
    rw [hcons, create_video_cons, ← hcons]
  refine ⟨_, hrun, rfl, ?_, ?_, ?_, ?_⟩
  · exact FS.mem_write_of_mem _ _ _ _ _
      (hmono _ _ (FS.mem_write fs2 (dir ++ "/narration.mp3") (.bytes audioBytes)))
  · intro j hj
    obtain ⟨c, hcmem⟩ := hframes j hj
    exact ⟨c, FS.mem_write_of_mem _ _ _ _ _ (by simpa using hcmem)⟩
  · exact FS.mem_write_of_mem _ _ _ _ _
      (hmono _ _ (FS.mem_write_of_mem _ _ _ _ _ (FS.mem_write s.fs _ _)))
  · exact ⟨_, FS.mem_write _ _ _⟩

/-- Witness for C5: a concrete one-scene run produces the claimed layout
under `output/20240101_120000_Cats/`. -/
theorem workflow_layout_witness :
    ∃ s', generate_video wOracles "Cats" ⟨[], [], []⟩ =
        (s', .ok (create_output_directory "20240101_120000" "Cats" ++ "/final_video.mp4")) ∧
      create_output_directory "20240101_120000" "Cats" =
        "output/" ++ "20240101_120000" ++ "_" ++ sanitize_topic "Cats" ∧
      (create_output_directory "20240101_120000" "Cats" ++ "/narration.mp3",
        FileData.bytes "mp3-bytes") ∈ s'.fs ∧
      (∀ j, j < ([Json.str "a cat"] : List Json).length → ∃ c,
        (framePath (create_output_directory "20240101_120000" "Cats") j,
          FileData.bytes c) ∈ s'.fs) ∧
      (create_output_directory "20240101_120000" "Cats" ++ "/project_info.json",
        FileData.jsonData (.obj [("topic", .str "Cats"),
          ("timestamp", .str "2024-01-01T12:00:00"),
          ("script", .str "A cat story."), ("scenes", .arr [.str "a cat"])])) ∈ s'.fs ∧
      ∃ clips, (create_output_directory "20240101_120000" "Cats" ++ "/final_video.mp4",
        FileData.videoData clips
          (create_output_directory "20240101_120000" "Cats" ++ "/narration.mp3")
          24 "libx264" "aac") ∈ s'.fs :=
  workflow_layout wOracles "Cats" ⟨[], [], []⟩ ⟨⟨"raw"⟩⟩ [] _ "A cat story."
    [.str "a cat"] "mp3-bytes" rfl rfl rfl rfl (List.cons_ne_nil _ _) rfl
    (fun _ _ => ⟨"http://img/u", [], ⟨200, "img-bytes"⟩, rfl, rfl⟩)

end TutorialAgent
